import Mathlib

/-!
Shallow embedding of the profile-edit-alerts bot (src/bot.py and
src/database.py) and proofs about its change-detection, preference
filtering, relevance gating, command handling and ingestion loops.

Modelling conventions:
* JSON values carried by events and profile records are modelled by the
  inductive type Json below (null, strings, objects); Python dict lookup,
  truthiness and the dict.get default behaviour are modelled explicitly.
* The PostgreSQL tables of database.py are modelled as association lists
  keyed by DID strings; NOW() timestamps are threaded as an explicit Nat
  parameter t.
* The atproto network client is modelled as a record of functions; a
  result of none for a lookup models a raised exception, which the bot
  catches at the sites indicated in the doc comments.
* Database connectivity failures and reconnection are out of scope: every
  modelled store operation reaches the database.
-/

mutual
/-- JSON values as seen by the bot: null (Python None), strings, and
objects with string keys. -/
inductive Json where
  | null : Json
  | str (s : String) : Json
  | obj (fields : JFields) : Json
deriving DecidableEq, Repr

/-- Field list of a JSON object, in insertion order. -/
inductive JFields where
  | nil : JFields
  | cons (key : String) (value : Json) (rest : JFields) : JFields
deriving DecidableEq, Repr
end

/-- Python truthiness of a JSON value: None and empty strings and empty
dicts are falsy, everything else is truthy. -/
def Json.truthy : Json → Bool
  | .null => false
  | .str s => s != ""
  | .obj .nil => false
  | .obj (.cons _ _ _) => true

/-- Python d[k] lookup returning the first binding of the key, none when
the key is absent. -/
def JFields.lookup : JFields → String → Option Json
  | .nil, _ => none
  | .cons k v rest, key => if k = key then some v else rest.lookup key

/-- Python d.get(k, dflt). -/
def getD (fs : JFields) (key : String) (dflt : Json) : Json :=
  (fs.lookup key).getD dflt

/-- Python x or dflt on JSON values. -/
def pyOr (v : Json) (dflt : Json) : Json :=
  if v.truthy then v else dflt

/-- Conditionally prepend a key to a JSON field list; models a Python
conditional dict assignment. -/
def consIf (b : Bool) (k : String) (v : Json) (rest : JFields) : JFields :=
  if b then .cons k v rest else rest

/-- A profile record as carried in the Jetstream commit payload: a JSON
object, given by its field list. -/
abbrev ProfileRecord := JFields

/-- First-match lookup in an association list keyed by strings. -/
def alistFind {α : Type} : List (String × α) → String → Option α
  | [], _ => none
  | (k, v) :: rest, key => if k = key then some v else alistFind rest key

/-- Upsert in an association list: replace the binding of the key using f
(f receives the old value when present), appending a new binding
otherwise.  Models an SQL upsert on a primary-key column. -/
def alistUpsert {α : Type} : List (String × α) → String → (Option α → α) → List (String × α)
  | [], key, f => [(key, f none)]
  | (k, v) :: rest, key, f =>
      if k = key then (key, f (some v)) :: rest else (k, v) :: alistUpsert rest key f

/-- One row of the profiles table (database.py, create_tables). -/
structure ProfileRow where
  handle : String
  display_name : Json
  description : Json
  avatar_ref : Json
  banner_ref : Json
  created_at : Nat
  updated_at : Nat
deriving DecidableEq, Repr

/-- One row of the user_preferences table (database.py, create_tables). -/
structure PrefRow where
  disabled_avatar : Bool
  disabled_banner : Bool
  disabled_displayname : Bool
  disabled_bio : Bool
  disabled_handle : Bool
  created_at : Nat
  updated_at : Nat
deriving DecidableEq, Repr

/-- Fresh user_preferences row with all column defaults (all flags FALSE). -/
def PrefRow.mkDefault (t : Nat) : PrefRow :=
  { disabled_avatar := false, disabled_banner := false, disabled_displayname := false,
    disabled_bio := false, disabled_handle := false, created_at := t, updated_at := t }

/-- The persistent state: the two tables of database.py. -/
structure Db where
  profiles : List (String × ProfileRow)
  prefs : List (String × PrefRow)
deriving DecidableEq, Repr

/-- The empty database. -/
def Db.empty : Db := { profiles := [], prefs := [] }

/-- Embeds database.get_profile: SELECT * FROM profiles WHERE did = $1. -/
def get_profile (db : Db) (did : String) : Option ProfileRow :=
  alistFind db.profiles did

/-- Embeds database.store_profile: INSERT ... ON CONFLICT (did) DO UPDATE
of every mutable column, setting updated_at to NOW() and keeping
created_at on conflict. -/
def store_profile (db : Db) (t : Nat) (did : String) (handle : String)
    (display_name description avatar_ref banner_ref : Json) : Db :=
  { db with profiles := alistUpsert db.profiles did (fun old =>
      match old with
      | some row =>
          { handle := handle, display_name := display_name, description := description,
            avatar_ref := avatar_ref, banner_ref := banner_ref,
            created_at := row.created_at, updated_at := t }
      | none =>
          { handle := handle, display_name := display_name, description := description,
            avatar_ref := avatar_ref, banner_ref := banner_ref,
            created_at := t, updated_at := t }) }

/-- Embeds database.update_handle: UPDATE profiles SET handle, updated_at
WHERE did = $2 AND handle != $1; the Bool result is whether the command
status was UPDATE 1, i.e. whether a row matched. -/
def update_handle (db : Db) (t : Nat) (did : String) (new_handle : String) : Bool × Db :=
  match alistFind db.profiles did with
  | some row =>
      if row.handle ≠ new_handle then
        (true,
         { db with profiles := alistUpsert db.profiles did (fun _ =>
             { row with handle := new_handle, updated_at := t }) })
      else (false, db)
  | none => (false, db)

/-- The disabled-category set read off one user_preferences row
(database.get_user_preferences, row branch). -/
def prefRowSet (row : PrefRow) : Finset String :=
  let d0 : Finset String := ∅
  let d1 := if row.disabled_avatar then insert "avatar" d0 else d0
  let d2 := if row.disabled_banner then insert "banner" d1 else d1
  let d3 := if row.disabled_displayname then insert "displayname" d2 else d2
  let d4 := if row.disabled_bio then insert "bio" d3 else d3
  if row.disabled_handle then insert "handle" d4 else d4

/-- Embeds database.get_user_preferences: the set of categories the user
opted out of; the empty set when no row is stored. -/
def get_user_preferences (db : Db) (user_did : String) : Finset String :=
  match alistFind db.prefs user_did with
  | none => ∅
  | some row => prefRowSet row

/-- The five valid notification categories (bot.py VALID_CATEGORIES and
the allow-list inside database.update_user_preference). -/
def VALID_CATEGORIES : List String :=
  ["avatar", "displayname", "bio", "handle", "banner"]

/-- The two valid command verbs (bot.py VALID_COMMANDS). -/
def VALID_COMMANDS : List String := ["disable", "enable"]

/-- Set the disabled flag of one category on a preferences row, updating
updated_at; models the dynamically built UPDATE statement of
database.update_user_preference. -/
def PrefRow.setFlag (row : PrefRow) (category : String) (disabled : Bool) (t : Nat) : PrefRow :=
  if category = "avatar" then { row with disabled_avatar := disabled, updated_at := t }
  else if category = "banner" then { row with disabled_banner := disabled, updated_at := t }
  else if category = "displayname" then { row with disabled_displayname := disabled, updated_at := t }
  else if category = "bio" then { row with disabled_bio := disabled, updated_at := t }
  else if category = "handle" then { row with disabled_handle := disabled, updated_at := t }
  else row

/-- Embeds database.update_user_preference: reject unknown categories,
INSERT a default row ON CONFLICT DO NOTHING, then UPDATE the single flag
column. -/
def update_user_preference (db : Db) (t : Nat) (user_did : String)
    (category : String) (disabled : Bool) : Bool × Db :=
  if category ∉ VALID_CATEGORIES then (false, db)
  else
    let prefs1 := alistUpsert db.prefs user_did (fun old =>
      match old with
      | some row => row
      | none => PrefRow.mkDefault t)
    let prefs2 := alistUpsert prefs1 user_did (fun old =>
      match old with
      | some row => row.setFlag category disabled t
      | none => PrefRow.mkDefault t)
    (true, { db with prefs := prefs2 })

/-- The per-recipient preference filter as applied in
bot.listen_profile_events line 688: the changed categories minus the
categories the recipient disabled. -/
def filter_enabled (db : Db) (recipient : String) (changed : Finset String) : Finset String :=
  changed \ get_user_preferences db recipient

/-- Result of client.get_profile as used by the bot: the attributes it
reads.  display_name and description may be Python None (Json.null);
avatar and banner are optional URL strings. -/
structure ApiProfile where
  handle : String
  display_name : Json
  description : Json
  avatar : Option String
  banner : Option String

/-- The atproto client as seen by the bot: its own DID, plus profile and
follower lookups.  A result of none models a raised exception at the call
site. -/
structure Client where
  me : String
  profile : String → Option ApiProfile
  followers : String → Option (List String)

/-- Old-value extraction for avatar and banner in
bot.detect_profile_changes (lines 60 to 65 and 82 to 87): the value is
read from the previous record only when the field is truthy and a dict,
taking its link entry with an empty-string default. -/
def oldBlobUrl (previous_record : ProfileRecord) (key : String) : Json :=
  match previous_record.lookup key with
  | some v =>
      if v.truthy then
        match v with
        | .obj fs => getD fs "$link" (.str "")
        | _ => .str ""
      else .str ""
  | none => .str ""

/-- New-value extraction for avatar and banner in
bot.detect_profile_changes (lines 67 to 73 and 89 to 95): a truthy dict
field is unwrapped through a nested ref dict when present, otherwise
through a flat link entry; everything else resolves to the empty
string. -/
def newBlobUrl (new_record : ProfileRecord) (key : String) : Json :=
  match new_record.lookup key with
  | some v =>
      if v.truthy then
        match v with
        | .obj fs =>
            match fs.lookup "ref" with
            | some (.obj rfs) => getD rfs "$link" (.str "")
            | _ =>
                match fs.lookup "$link" with
                | some l => l
                | none => .str ""
        | _ => .str ""
      else .str ""
  | none => .str ""

/-- Reference extraction inside bot.store_profile_from_record (lines 120
to 128).  The Python code calls .get on the ref entry; when that entry is
present but not a dict this raises AttributeError, which the surrounding
try block catches, skipping the whole store: that outcome is modelled as
none. -/
def extractStoreRef (record : ProfileRecord) (key : String) : Option Json :=
  match record.lookup key with
  | some v =>
      if v.truthy then
        match v with
        | .obj fs =>
            match getD fs "ref" (.obj .nil) with
            | .obj rfs => some (getD rfs "$link" (.str ""))
            | _ => none
        | _ => some .null
      else some .null
  | none => some .null

/-- Embeds bot.store_profile_from_record (lines 117 to 150): extract the
avatar and banner references (nested form only), fetch the handle through
the client when available (empty on failure), and upsert the profile row.
When reference extraction raises, the caught exception leaves the
database untouched. -/
def store_profile_from_record (db : Db) (t : Nat) (user_did : String)
    (record : ProfileRecord) (client : Option Client) : Db :=
  match extractStoreRef record "avatar" with
  | none => db
  | some avatar_ref =>
    match extractStoreRef record "banner" with
    | none => db
    | some banner_ref =>
      let handle : String :=
        match client with
        | some c =>
            match c.profile user_did with
            | some p => p.handle
            | none => ""
        | none => ""
      store_profile db t user_did handle
        (getD record "displayName" (.str ""))
        (getD record "description" (.str ""))
        (pyOr avatar_ref (.str ""))
        (pyOr banner_ref (.str ""))

/-- The comparison record built from a stored profile row in
bot.detect_profile_changes (lines 48 to 57): each truthy column is added
under its record key, references rewrapped as flat link dicts. -/
def prevRecordOfRow (row : ProfileRow) : ProfileRecord :=
  consIf row.avatar_ref.truthy "avatar" (.obj (.cons "$link" row.avatar_ref .nil))
    (consIf row.banner_ref.truthy "banner" (.obj (.cons "$link" row.banner_ref .nil))
      (consIf row.display_name.truthy "displayName" row.display_name
        (consIf row.description.truthy "description" row.description .nil)))

/-- The comparison record built from a live API profile on first
observation in bot.detect_profile_changes (lines 32 to 38): a truthy
avatar becomes a flat link dict; displayName and description are always
assigned; the API baseline carries no banner. -/
def prevRecordOfApi (p : ApiProfile) : ProfileRecord :=
  let base : ProfileRecord :=
    .cons "displayName" p.display_name (.cons "description" p.description .nil)
  match p.avatar with
  | some s => if s ≠ "" then .cons "avatar" (.obj (.cons "$link" (.str s) .nil)) base else base
  | none => base

/-- The four attribute comparisons of bot.detect_profile_changes (lines
59 to 110), accumulating the changed category names. -/
def compute_changed (previous_record new_record : ProfileRecord) : Finset String :=
  let s0 : Finset String := ∅
  let s1 := if oldBlobUrl previous_record "avatar" ≠ newBlobUrl new_record "avatar"
            then insert "avatar" s0 else s0
  let s2 := if oldBlobUrl previous_record "banner" ≠ newBlobUrl new_record "banner"
            then insert "banner" s1 else s1
  let s3 := if getD previous_record "displayName" (.str "") ≠ getD new_record "displayName" (.str "")
            then insert "displayname" s2 else s2
  if getD previous_record "description" (.str "") ≠ getD new_record "description" (.str "")
  then insert "bio" s3 else s3

/-- Embeds bot.detect_profile_changes (lines 18 to 115): load the stored
snapshot; on first observation optionally seed a baseline from the live
API (an API failure stores the record and reports no changes); compare
the four attributes; always persist the incoming record as the new
snapshot.  Returns the changed categories and the updated database. -/
def detect_profile_changes (db : Db) (t : Nat) (user_did : String)
    (new_record : ProfileRecord) (client : Option Client) : Finset String × Db :=
  match get_profile db user_did with
  | none =>
      match client with
      | some c =>
          match c.profile user_did with
          | none => (∅, store_profile_from_record db t user_did new_record (some c))
          | some p =>
              (compute_changed (prevRecordOfApi p) new_record,
               store_profile_from_record db t user_did new_record (some c))
      | none => (∅, store_profile_from_record db t user_did new_record none)
  | some row =>
      (compute_changed (prevRecordOfRow row) new_record,
       store_profile_from_record db t user_did new_record client)

/-- An inbound Jetstream event after JSON parsing, as dispatched by the
two listeners: an identity event carrying the subject DID and the new
handle (empty string models a missing or falsy field), a commit event
carrying DID, collection, operation and record, or any other kind. -/
inductive Event where
  | identity (did : String) (handle : String) : Event
  | commit (did : String) (collection : String) (operation : String)
      (record : ProfileRecord) : Event
  | other : Event

/-- Python set intersection of two follower DID lists, as a duplicate-free
list; only membership and emptiness of the result are relied upon. -/
def pyIntersect (user_followers bot_followers : List String) : List String :=
  (user_followers.filter (fun d => d ∈ bot_followers)).dedup

/-- The mutual-follower computation both listeners perform (bot.py lines
387 to 393, 462 to 468 and 660 to 666): fetch the followers of the
subject and of the bot and intersect; none models a raised lookup
exception, caught by the surrounding handler. -/
def mutual_followers (c : Client) (did : String) : Option (List String) :=
  match c.followers did, c.followers c.me with
  | some uf, some bf => some (pyIntersect uf bf)
  | _, _ => none

/-- One dispatch round of bot.listen_identity_events (lines 314 to 513)
for a single parsed event: returns the DIDs send_dm is invoked for, in
order, and the resulting database.  Welcome messages go to any follow
commit whose record subject is the bot (lines 334 to 371, no operation
check).  Identity events update the handle and notify mutual followers
that did not disable the handle category (lines 374 to 441).  Profile
update commits run change detection and notify (lines 444 to 508); when
the detected change set is empty, every mutual follower is messaged
(lines 497 to 505). -/
def identity_listener_event (db : Db) (t : Nat) (c : Client) (ev : Event) :
    List String × Db :=
  match ev with
  | .other => ([], db)
  | .commit did collection _operation record =>
      if collection = "app.bsky.graph.follow" then
        if getD record "subject" .null = .str c.me then ([did], db) else ([], db)
      else if collection = "app.bsky.actor.profile" then
        if _operation ≠ "update" then ([], db)
        else
          match mutual_followers c did with
          | none => ([], db)
          | some mutuals =>
              if mutuals.isEmpty then ([], db)
              else
                match c.profile did with
                | none => ([], db)
                | some _ =>
                    let res := detect_profile_changes db t did record (some c)
                    if res.1 = ∅ then (mutuals, res.2)
                    else
                      (mutuals.filter (fun f =>
                         !(decide (res.1 ⊆ get_user_preferences res.2 f))), res.2)
      else ([], db)
  | .identity did handle =>
      if did = "" || handle = "" then ([], db)
      else
        match mutual_followers c did with
        | none => ([], db)
        | some mutuals =>
            if mutuals.isEmpty then ([], db)
            else
              let db2 :=
                match get_profile db did with
                | some _ => (update_handle db t did handle).2
                | none =>
                    match c.profile did with
                    | some p =>
                        store_profile db t did handle
                          (pyOr p.display_name (.str ""))
                          (pyOr p.description (.str ""))
                          (.str (p.avatar.getD ""))
                          (.str (p.banner.getD ""))
                    | none => db
              let toNotify := mutuals.filter (fun f =>
                !(decide ("handle" ∈ get_user_preferences db2 f)))
              if toNotify.isEmpty then ([], db2)
              else
                match c.profile did with
                | some _ => (toNotify, db2)
                | none => ([], db2)

/-- One dispatch round of bot.listen_profile_events (lines 605 to 707)
for a single parsed event: returns the DIDs send_dm is invoked for and
the resulting database.  Non-commit events are skipped (line 610).
Follow commits with operation create whose subject is the bot get a
welcome message (lines 616 to 645).  Profile update commits run change
detection and notify each mutual follower whose enabled remainder is
non-empty (lines 648 to 698); an empty detected change set sends
nothing. -/
def profile_listener_event (db : Db) (t : Nat) (c : Client) (ev : Event) :
    List String × Db :=
  match ev with
  | .other => ([], db)
  | .identity _ _ => ([], db)
  | .commit did collection operation record =>
      if collection = "app.bsky.graph.follow" then
        if operation = "create" ∧ getD record "subject" .null = .str c.me
        then ([did], db) else ([], db)
      else if collection = "app.bsky.actor.profile" then
        if operation ≠ "update" then ([], db)
        else
          match mutual_followers c did with
          | none => ([], db)
          | some mutuals =>
              if mutuals.isEmpty then ([], db)
              else
                match c.profile did with
                | none => ([], db)
                | some _ =>
                    let res := detect_profile_changes db t did record (some c)
                    if res.1 = ∅ then ([], res.2)
                    else
                      (mutuals.filter (fun f =>
                         let disabled := get_user_preferences res.2 f
                         !(decide (res.1 ⊆ disabled)) &&
                           !(decide (res.1 \ disabled = ∅))), res.2)
      else ([], db)

/-- Python str.lower(), character by character. -/
def pyLower (s : String) : String := ⟨s.data.map Char.toLower⟩

/-- Tokenizer behind pySplit: walk the characters, accumulating the
current token in reverse and flushing it at each space. -/
def pyTokens : List Char → List Char → List String
  | [], cur => if cur.isEmpty then [] else [⟨cur.reverse⟩]
  | ch :: rest, cur =>
      if ch = ' ' then
        if cur.isEmpty then pyTokens rest [] else ⟨cur.reverse⟩ :: pyTokens rest []
      else pyTokens rest (ch :: cur)

/-- Python str.split() with no argument: split on whitespace runs and
drop empty pieces; whitespace is modelled as the space character. -/
def pySplit (s : String) : List String := pyTokens s.data []

/-- Confirmation reply of the command handler (bot.py line 552 and 555). -/
def confirmReply (category : String) (disabled : Bool) : String :=
  if disabled then "Notifications for " ++ category ++ " changes have been disabled."
  else "Notifications for " ++ category ++ " changes have been enabled."

/-- Failure reply of the command handler (bot.py lines 552 and 555). -/
def errorReply : String := "Error updating preferences."

/-- First line of the usage reply of the command handler (bot.py lines
559 to 573); the body listing the commands is elided. -/
def usageReply : String := "Invalid command. Please use one of these formats:"

/-- Embeds the per-message command processing of
bot.check_followers_and_dms (lines 540 to 574): messages from the bot
itself are ignored; the lowercased text is tokenized; exactly two tokens
with a valid verb and category update the preference and confirm,
two invalid tokens get a usage reply, and any other token count falls
through with no reply at all.  Returns the reply texts sent to the
sender and the resulting database. -/
def process_dm_message (db : Db) (t : Nat) (bot_did sender_did : String)
    (text : String) : List String × Db :=
  if sender_did = bot_did then ([], db)
  else
    match pySplit (pyLower text) with
    | [command, category] =>
        if VALID_COMMANDS.contains command && VALID_CATEGORIES.contains category then
          if command = "disable" then
            let res := update_user_preference db t sender_did category true
            ([if res.1 then confirmReply category true else errorReply], res.2)
          else
            let res := update_user_preference db t sender_did category false
            ([if res.1 then confirmReply category false else errorReply], res.2)
        else ([usageReply], db)
    | _ => ([], db)

/-- Outcome of one websocket connection attempt in the ingestion loops: a
connection or protocol failure, or a connection that delivers a finite
sequence of events and then ends (closure and drop both leave the
per-endpoint iteration). -/
inductive ConnOutcome where
  | failConnect : ConnOutcome
  | connected (events : List Event) : ConnOutcome

/-- Trace of one run of an ingestion loop: the endpoints attempted in
order, the sleep durations performed between attempts, the DIDs messaged,
and the final database. -/
structure ListenRun where
  attempted : List String
  sleeps : List Nat
  sends : List String
  finalDb : Db

/-- Skeleton shared by bot.listen_identity_events and
bot.listen_profile_events (lines 302 to 525 and 600 to 713): iterate the
endpoint list once, in order; a failed connection moves straight to the
next endpoint (the except branches end in continue with no sleep call);
a successful connection processes its events through the per-event
handler, threading the database; when a connection ends the iteration
also moves on; after the list is exhausted the function logs and
returns.  The model records the attempt order and the (absent) backoff
sleeps. -/
def run_connection (handler : Db → Event → List String × Db) (db : Db) :
    ConnOutcome → List String × Db
  | .failConnect => ([], db)
  | .connected events =>
      events.foldl (fun acc ev =>
        let r := handler acc.2 ev
        (acc.1 ++ r.1, r.2)) ([], db)

def run_listener (handler : Db → Event → List String × Db) (db : Db) :
    List String → (String → ConnOutcome) → ListenRun
  | [], _ => { attempted := [], sleeps := [], sends := [], finalDb := db }
  | uri :: rest, outcome =>
      let step := run_connection handler db (outcome uri)
      let tail := run_listener handler step.2 rest outcome
      { attempted := uri :: tail.attempted, sleeps := tail.sleeps,
        sends := step.1 ++ tail.sends, finalDb := tail.finalDb }

/-- The four Jetstream endpoints of bot.listen_identity_events (lines 295
to 300). -/
def identity_endpoints : List String :=
  ["wss://jetstream1.us-east.fire.hose.cam/subscribe?wantedCollections=nothing.please.thanks&compress=false",
   "wss://jetstream2.us-west.bsky.network/subscribe?wantedCollections=nothing.please.thanks&compress=false",
   "wss://jetstream1.us-west.bsky.network/subscribe?wantedCollections=nothing.please.thanks&compress=false",
   "wss://jetstream1.us-east.bsky.network/subscribe?wantedCollections=nothing.please.thanks&compress=false"]

/-- The four Jetstream endpoints of bot.listen_profile_events (lines 593
to 598). -/
def profile_endpoints : List String :=
  ["wss://jetstream1.us-east.fire.hose.cam/subscribe?wantedCollections=app.bsky.actor.profile,app.bsky.graph.follow&compress=false",
   "wss://jetstream2.us-west.bsky.network/subscribe?wantedCollections=app.bsky.actor.profile,app.bsky.graph.follow&compress=false",
   "wss://jetstream1.us-west.bsky.network/subscribe?wantedCollections=app.bsky.actor.profile,app.bsky.graph.follow&compress=false",
   "wss://jetstream1.us-east.bsky.network/subscribe?wantedCollections=app.bsky.actor.profile,app.bsky.graph.follow&compress=false"]

theorem alistFind_upsert_self {α : Type} (l : List (String × α)) (k : String) (f : Option α → α) :
    alistFind (alistUpsert l k f) k = some (f (alistFind l k)) := by
  induction l with
  | nil => simp [alistFind, alistUpsert]
  | cons hd tl ih =>
      obtain ⟨k0, v0⟩ := hd
      by_cases h : k0 = k
      · subst h; simp [alistFind, alistUpsert]
      · simp [alistFind, alistUpsert, h, ih]

theorem alistFind_upsert_ne {α : Type} (l : List (String × α)) (k key : String)
    (f : Option α → α) (h : key ≠ k) :
    alistFind (alistUpsert l k f) key = alistFind l key := by
  induction l with
  | nil => simp [alistFind, alistUpsert, Ne.symm h]
  | cons hd tl ih =>
      obtain ⟨k0, v0⟩ := hd
      by_cases h0 : k0 = k
      · subst h0
        simp [alistFind, alistUpsert, Ne.symm h]
      · simp only [alistUpsert, if_neg h0]
        by_cases h1 : k0 = key
        · subst h1; simp [alistFind]
        · simp [alistFind, h1, ih]

theorem pyOr_idem (j : Json) : pyOr (pyOr j (.str "")) (.str "") = pyOr j (.str "") := by
  by_cases h : j.truthy = true
  · simp [pyOr, h]
  · simp only [pyOr, h, if_neg, if_false]
    simp [Json.truthy, h]

theorem prevRecord_avatar (row : ProfileRow) :
    oldBlobUrl (prevRecordOfRow row) "avatar" = pyOr row.avatar_ref (.str "") := by
  unfold prevRecordOfRow pyOr
  cases hA : row.avatar_ref.truthy <;> cases hB : row.banner_ref.truthy <;>
    cases hD : row.display_name.truthy <;> cases hE : row.description.truthy <;>
      simp [consIf, oldBlobUrl, JFields.lookup, getD, Json.truthy]

theorem prevRecord_banner (row : ProfileRow) :
    oldBlobUrl (prevRecordOfRow row) "banner" = pyOr row.banner_ref (.str "") := by
  unfold prevRecordOfRow pyOr
  cases hA : row.avatar_ref.truthy <;> cases hB : row.banner_ref.truthy <;>
    cases hD : row.display_name.truthy <;> cases hE : row.description.truthy <;>
      simp [consIf, oldBlobUrl, JFields.lookup, getD, Json.truthy]

theorem prevRecord_displayName (row : ProfileRow) :
    getD (prevRecordOfRow row) "displayName" (.str "") = pyOr row.display_name (.str "") := by
  unfold prevRecordOfRow pyOr
  cases hA : row.avatar_ref.truthy <;> cases hB : row.banner_ref.truthy <;>
    cases hD : row.display_name.truthy <;> cases hE : row.description.truthy <;>
      simp [consIf, getD, JFields.lookup]

theorem prevRecord_description (row : ProfileRow) :
    getD (prevRecordOfRow row) "description" (.str "") = pyOr row.description (.str "") := by
  unfold prevRecordOfRow pyOr
  cases hA : row.avatar_ref.truthy <;> cases hB : row.banner_ref.truthy <;>
    cases hD : row.display_name.truthy <;> cases hE : row.description.truthy <;>
      simp [consIf, getD, JFields.lookup]

theorem detect_snd (db : Db) (t : Nat) (did : String) (rec : ProfileRecord)
    (c : Option Client) :
    (detect_profile_changes db t did rec c).2 = store_profile_from_record db t did rec c := by
  unfold detect_profile_changes
  split
  · split
    · split <;> rfl
    · rfl
  · rfl

/-- C6: the preference filter only ever removes categories, and a
recipient without a stored preference row keeps the full change set. -/
theorem preference_filter_subtraction (db : Db) (r : String) (C : Finset String) :
    filter_enabled db r C ⊆ C ∧
    (alistFind db.prefs r = none → filter_enabled db r C = C) := by
  constructor
  · exact Finset.sdiff_subset
  · intro h
    unfold filter_enabled get_user_preferences
    rw [h]
    exact Finset.sdiff_empty

theorem preference_filter_subtraction_witness :
    filter_enabled Db.empty "did:plc:u1" {"avatar", "bio"} ⊆ {"avatar", "bio"} ∧
    filter_enabled Db.empty "did:plc:u1" {"avatar", "bio"} = {"avatar", "bio"} :=
  ⟨(preference_filter_subtraction Db.empty "did:plc:u1" {"avatar", "bio"}).1,
   (preference_filter_subtraction Db.empty "did:plc:u1" {"avatar", "bio"}).2 rfl⟩

theorem avatar_not_mem_prefRowSet (row : PrefRow) (h : row.disabled_avatar = false) :
    "avatar" ∉ prefRowSet row := by
  unfold prefRowSet
  rw [h]
  simp only [Bool.false_eq_true, if_false]
  split_ifs <;> decide

theorem update_user_preference_find_self (db : Db) (t : Nat) (did cat : String) (dis : Bool)
    (h : ¬ (cat ∉ VALID_CATEGORIES)) :
    ∃ row0 : PrefRow, alistFind (update_user_preference db t did cat dis).2.prefs did =
      some (row0.setFlag cat dis t) := by
  unfold update_user_preference
  rw [if_neg h]
  simp only [alistFind_upsert_self]
  exact ⟨_, rfl⟩

theorem setFlag_avatar_false (row : PrefRow) (t : Nat) :
    (row.setFlag "avatar" false t).disabled_avatar = false := by
  simp [PrefRow.setFlag]

/-- C7: disabling and then re-enabling the avatar category leaves a state
in which the preference filter passes the avatar change set through
unchanged. -/
theorem command_round_trip (db : Db) (t1 t2 : Nat) (r : String) :
    filter_enabled
      (update_user_preference (update_user_preference db t1 r "avatar" true).2
        t2 r "avatar" false).2
      r {"avatar"} = {"avatar"} := by
  have hvalid : ¬ (("avatar" : String) ∉ VALID_CATEGORIES) := by decide
  obtain ⟨row0, hfind⟩ := update_user_preference_find_self
      (update_user_preference db t1 r "avatar" true).2 t2 r "avatar" false hvalid
  unfold filter_enabled get_user_preferences
  rw [hfind]
  show ({"avatar"} : Finset String) \ prefRowSet (row0.setFlag "avatar" false t2) = {"avatar"}
  have hmem := avatar_not_mem_prefRowSet (row0.setFlag "avatar" false t2)
      (setFlag_avatar_false row0 t2)
  ext x
  simp only [Finset.mem_sdiff, Finset.mem_singleton]
  constructor
  · rintro ⟨hx, -⟩; exact hx
  · rintro hx
    refine ⟨hx, ?_⟩
    rw [hx]
    exact hmem

/-- C10: update_handle succeeds exactly when a row exists whose stored
handle differs from the new one; on success it rewrites only the handle
and updated_at of that row, and on failure the database is untouched. -/
theorem update_handle_spec (db : Db) (t : Nat) (did new_handle : String) :
    ((update_handle db t did new_handle).1 = true ↔
        ∃ row, get_profile db did = some row ∧ row.handle ≠ new_handle)
    ∧ ((update_handle db t did new_handle).1 = false →
        (update_handle db t did new_handle).2 = db)
    ∧ (update_handle db t did new_handle).2.prefs = db.prefs
    ∧ (∀ k, k ≠ did →
        alistFind (update_handle db t did new_handle).2.profiles k = alistFind db.profiles k)
    ∧ (∀ row, get_profile db did = some row → row.handle ≠ new_handle →
        alistFind (update_handle db t did new_handle).2.profiles did =
          some { row with handle := new_handle, updated_at := t }) := by
  rcases h : alistFind db.profiles did with _ | row
  · have e : update_handle db t did new_handle = (false, db) := by
      unfold update_handle; rw [h]
    rw [e]
    refine ⟨?_, ?_, ?_, ?_, ?_⟩
    · simp [get_profile, h]
    · intro; rfl
    · rfl
    · intro k _; rfl
    · intro row hrow _
      rw [get_profile, h] at hrow
      exact Option.noConfusion hrow
  · by_cases hh : row.handle = new_handle
    · have e : update_handle db t did new_handle = (false, db) := by
        unfold update_handle; rw [h]; exact if_neg (not_not_intro hh)
      rw [e]
      refine ⟨?_, ?_, ?_, ?_, ?_⟩
      · constructor
        · intro hfalse; exact absurd hfalse (by simp)
        · rintro ⟨row', hrow', hne'⟩
          rw [get_profile, h] at hrow'
          injection hrow' with he
          subst he
          exact absurd hh hne'
      · intro; rfl
      · rfl
      · intro k _; rfl
      · intro row' hrow' hne'
        rw [get_profile, h] at hrow'
        injection hrow' with he
        subst he
        exact absurd hh hne'
    · have e : update_handle db t did new_handle =
          (true, { db with profiles := alistUpsert db.profiles did (fun _ =>
            { row with handle := new_handle, updated_at := t }) }) := by
        unfold update_handle; rw [h]; exact if_pos hh
      rw [e]
      refine ⟨?_, ?_, ?_, ?_, ?_⟩
      · constructor
        · intro _
          exact ⟨row, by rw [get_profile, h], hh⟩
        · intro _; rfl
      · intro hf; exact absurd hf (by simp)
      · rfl
      · intro k hk; exact alistFind_upsert_ne db.profiles did k _ hk
      · intro row' hrow' _
        rw [get_profile, h] at hrow'
        injection hrow' with he
        subst he
        rw [alistFind_upsert_self]

def rowW10 : ProfileRow :=
  { handle := "old.handle", display_name := .str "N", description := .str "",
    avatar_ref := .str "", banner_ref := .str "", created_at := 0, updated_at := 0 }

def dbW10 : Db := { profiles := [("did:plc:w10", rowW10)], prefs := [] }

theorem update_handle_spec_witness :
    alistFind (update_handle dbW10 7 "did:plc:w10" "new.handle").2.profiles "did:plc:w10" =
      some { rowW10 with handle := "new.handle", updated_at := 7 } :=
  (update_handle_spec dbW10 7 "did:plc:w10" "new.handle").2.2.2.2 rowW10 (by decide) (by decide)

/-- C8 counterexample: the single-token message help, sent by a non-bot
user, produces no reply at all: the command handler only ever replies to
messages that tokenize into exactly two pieces. -/
theorem dm_silent_drop_refuted :
    "did:plc:carol" ≠ "did:plc:bot" ∧
    (process_dm_message Db.empty 0 "did:plc:bot" "did:plc:carol" "help").1 = [] := by
  exact ⟨by decide, by decide⟩

/-- C8 amended: for a message from a non-bot sender, the handler replies
exactly when the lowercased text splits into two tokens (confirmation or
usage text); any other token count, including help keywords, is dropped
with no reply. -/
theorem dm_reply_iff_two_tokens (db : Db) (t : Nat) (bot_did sender_did text : String)
    (hs : sender_did ≠ bot_did) :
    ((process_dm_message db t bot_did sender_did text).1 = [] ↔
      (pySplit (pyLower text)).length ≠ 2) := by
  unfold process_dm_message
  rw [if_neg hs]
  rcases hsplit : pySplit (pyLower text) with _ | ⟨a, _ | ⟨b, _ | ⟨c, l⟩⟩⟩
  · simp
  · simp
  · simp only [List.length_cons, List.length_nil]
    split_ifs <;> simp
  · simp

theorem dm_reply_iff_two_tokens_witness :
    ((process_dm_message Db.empty 0 "did:plc:bot" "did:plc:carol" "disable avatar").1 = [] ↔
      (pySplit (pyLower "disable avatar")).length ≠ 2) :=
  dm_reply_iff_two_tokens Db.empty 0 "did:plc:bot" "did:plc:carol" "disable avatar" (by decide)

/-- C9 amended: any run of an ingestion loop attempts the configured
endpoints in order, each exactly once, performs no backoff sleep between
attempts, and terminates after the list is exhausted, whatever the
connection outcomes. -/
theorem ingestion_single_pass (handler : Db → Event → List String × Db) (db : Db)
    (endpoints : List String) (outcome : String → ConnOutcome) :
    (run_listener handler db endpoints outcome).attempted = endpoints ∧
    (run_listener handler db endpoints outcome).sleeps = [] := by
  induction endpoints generalizing db with
  | nil => exact ⟨rfl, rfl⟩
  | cons uri rest ih =>
      obtain ⟨h1, h2⟩ := ih (run_connection handler db (outcome uri)).2
      exact ⟨congrArg (uri :: ·) h1, h2⟩

def clientDead : Client :=
  { me := "did:plc:bot", profile := fun _ => none, followers := fun _ => none }

/-- C9 counterexample: with every connection attempt failing, one run of
either listener attempts each of its four endpoints exactly once, with no
backoff sleeps, and then terminates; the cycle is never restarted. -/
theorem ingestion_restart_refuted :
    (run_listener (fun db ev => profile_listener_event db 0 clientDead ev) Db.empty
        profile_endpoints (fun _ => .failConnect)).attempted = profile_endpoints ∧
    (run_listener (fun db ev => profile_listener_event db 0 clientDead ev) Db.empty
        profile_endpoints (fun _ => .failConnect)).sleeps = [] ∧
    (run_listener (fun db ev => identity_listener_event db 0 clientDead ev) Db.empty
        identity_endpoints (fun _ => .failConnect)).attempted = identity_endpoints ∧
    profile_endpoints.length = 4 := by
  exact ⟨rfl, rfl, rfl, rfl⟩

theorem detect_fst_of_row (db : Db) (t : Nat) (did : String) (rec : ProfileRecord)
    (c : Option Client) (row : ProfileRow) (hrow : get_profile db did = some row) :
    (detect_profile_changes db t did rec c).1 = compute_changed (prevRecordOfRow row) rec := by
  unfold detect_profile_changes
  rw [hrow]

/-- C2: when the stored avatar reference is the string s and the incoming
avatar field resolves to the same string s, whatever its raw shape, the
avatar category is not reported as changed. -/
theorem avatar_normalization_equivalence (db : Db) (t : Nat) (did : String)
    (rec : ProfileRecord) (c : Option Client) (row : ProfileRow) (s : String)
    (hrow : get_profile db did = some row)
    (ha : row.avatar_ref = .str s)
    (hnew : newBlobUrl rec "avatar" = .str s) :
    "avatar" ∉ (detect_profile_changes db t did rec c).1 := by
  rw [detect_fst_of_row db t did rec c row hrow]
  have hold : oldBlobUrl (prevRecordOfRow row) "avatar" = .str s := by
    rw [prevRecord_avatar, ha]
    by_cases h0 : s = ""
    · subst h0; simp [pyOr, Json.truthy]
    · simp [pyOr, Json.truthy, h0]
  simp only [compute_changed]
  rw [hold, hnew]
  rw [if_neg (not_not_intro rfl)]
  split_ifs <;> decide

def rowW2 : ProfileRow :=
  { handle := "bob.test", display_name := .str "", description := .str "",
    avatar_ref := .str "cid123", banner_ref := .str "", created_at := 0, updated_at := 0 }

def dbW2 : Db := { profiles := [("did:plc:bob", rowW2)], prefs := [] }

def recW2 : ProfileRecord :=
  .cons "avatar" (.obj (.cons "ref" (.obj (.cons "$link" (.str "cid123") .nil)) .nil)) .nil

theorem avatar_normalization_equivalence_witness :
    "avatar" ∉ (detect_profile_changes dbW2 3 "did:plc:bob" recW2 none).1 :=
  avatar_normalization_equivalence dbW2 3 "did:plc:bob" recW2 none rowW2 "cid123"
    (by decide) (by decide) (by decide)

/-- C3: for a subject with a stored snapshot, changing exactly one of the
four comparable attributes in resolved value, holding the other three
resolved values constant, yields exactly that singleton category. -/
theorem category_completeness (db : Db) (t : Nat) (did : String) (rec : ProfileRecord)
    (c : Option Client) (row : ProfileRow) (hrow : get_profile db did = some row) :
    ((oldBlobUrl (prevRecordOfRow row) "avatar" ≠ newBlobUrl rec "avatar" →
      oldBlobUrl (prevRecordOfRow row) "banner" = newBlobUrl rec "banner" →
      getD (prevRecordOfRow row) "displayName" (.str "") = getD rec "displayName" (.str "") →
      getD (prevRecordOfRow row) "description" (.str "") = getD rec "description" (.str "") →
      (detect_profile_changes db t did rec c).1 = {"avatar"})
    ∧ (oldBlobUrl (prevRecordOfRow row) "avatar" = newBlobUrl rec "avatar" →
      oldBlobUrl (prevRecordOfRow row) "banner" ≠ newBlobUrl rec "banner" →
      getD (prevRecordOfRow row) "displayName" (.str "") = getD rec "displayName" (.str "") →
      getD (prevRecordOfRow row) "description" (.str "") = getD rec "description" (.str "") →
      (detect_profile_changes db t did rec c).1 = {"banner"})
    ∧ (oldBlobUrl (prevRecordOfRow row) "avatar" = newBlobUrl rec "avatar" →
      oldBlobUrl (prevRecordOfRow row) "banner" = newBlobUrl rec "banner" →
      getD (prevRecordOfRow row) "displayName" (.str "") ≠ getD rec "displayName" (.str "") →
      getD (prevRecordOfRow row) "description" (.str "") = getD rec "description" (.str "") →
      (detect_profile_changes db t did rec c).1 = {"displayname"})
    ∧ (oldBlobUrl (prevRecordOfRow row) "avatar" = newBlobUrl rec "avatar" →
      oldBlobUrl (prevRecordOfRow row) "banner" = newBlobUrl rec "banner" →
      getD (prevRecordOfRow row) "displayName" (.str "") = getD rec "displayName" (.str "") →
      getD (prevRecordOfRow row) "description" (.str "") ≠ getD rec "description" (.str "") →
      (detect_profile_changes db t did rec c).1 = {"bio"})) := by
  have hfst := detect_fst_of_row db t did rec c row hrow
  refine ⟨?_, ?_, ?_, ?_⟩ <;> intro h1 h2 h3 h4 <;> rw [hfst] <;> simp only [compute_changed]
  · rw [if_pos h1, if_neg (not_not_intro h2), if_neg (not_not_intro h3),
      if_neg (not_not_intro h4)]
    decide
  · rw [if_neg (not_not_intro h1), if_pos h2, if_neg (not_not_intro h3),
      if_neg (not_not_intro h4)]
    decide
  · rw [if_neg (not_not_intro h1), if_neg (not_not_intro h2), if_pos h3,
      if_neg (not_not_intro h4)]
    decide
  · rw [if_neg (not_not_intro h1), if_neg (not_not_intro h2), if_neg (not_not_intro h3),
      if_pos h4]
    decide

def rowW3 : ProfileRow :=
  { handle := "alice.test", display_name := .str "Alice", description := .str "hi",
    avatar_ref := .str "cidA", banner_ref := .str "", created_at := 0, updated_at := 0 }

def dbW3 : Db := { profiles := [("did:plc:alice", rowW3)], prefs := [] }

def recW3 : ProfileRecord :=
  .cons "displayName" (.str "Alice B") (.cons "description" (.str "hi")
    (.cons "avatar" (.obj (.cons "ref" (.obj (.cons "$link" (.str "cidA") .nil)) .nil)) .nil))

theorem category_completeness_witness :
    (detect_profile_changes dbW3 5 "did:plc:alice" recW3 none).1 = {"displayname"} :=
  (category_completeness dbW3 5 "did:plc:alice" recW3 none rowW3 (by decide)).2.2.1
    (by decide) (by decide) (by decide) (by decide)

/-- A displayName or description field that survives the store-reload
round trip unchanged: absent, truthy, or the empty string.  A present
null (or other falsy non-string) is stored via the empty-string default
but compared against its raw value, so it is excluded. -/
def goodTextField (record : ProfileRecord) (key : String) : Bool :=
  match record.lookup key with
  | none => true
  | some v => v.truthy || v == .str ""

/-- An avatar or banner field whose store-time extraction (nested form
only) agrees with the detect-time extraction (nested or flat form):
absent or non-dict fields, and dict fields whose link comes through a
nested ref dict with a string (or absent) link value, or with no link at
all.  Flat-link dicts and non-dict ref entries are excluded: the former
resolve differently on the two sides, the latter make the store raise. -/
def goodBlobField (record : ProfileRecord) (key : String) : Bool :=
  match record.lookup key with
  | some (.obj fs) =>
      (match fs.lookup "ref" with
      | some (.obj rfs) =>
          (getD rfs "$link" (.str "")).truthy || (getD rfs "$link" (.str "") == .str "")
      | some _ => false
      | none =>
          (fs.lookup "$link" == none) || (fs.lookup "$link" == some (.str "")))
  | _ => true

/-- Records on which snapshot storage and change detection use the same
resolved values for all four compared attributes. -/
def WellFormedRecord (r : ProfileRecord) : Bool :=
  goodBlobField r "avatar" && goodBlobField r "banner" &&
  goodTextField r "displayName" && goodTextField r "description"

theorem blob_store_detect (r : ProfileRecord) (key : String)
    (h : goodBlobField r key = true) :
    ∃ j : Json, extractStoreRef r key = some j ∧ pyOr j (.str "") = newBlobUrl r key := by
  rcases hlk : r.lookup key with _ | v
  · refine ⟨.null, ?_, ?_⟩
    · unfold extractStoreRef
      rw [hlk]
    · unfold newBlobUrl
      rw [hlk]
      simp [pyOr, Json.truthy]
  · cases v with
    | null =>
        refine ⟨.null, ?_, ?_⟩
        · unfold extractStoreRef
          rw [hlk]
          simp [Json.truthy]
        · unfold newBlobUrl
          rw [hlk]
          simp [pyOr, Json.truthy]
    | str s =>
        refine ⟨.null, ?_, ?_⟩
        · unfold extractStoreRef
          rw [hlk]
          cases htr : (Json.str s).truthy <;> simp [htr]
        · unfold newBlobUrl
          rw [hlk]
          cases htr : (Json.str s).truthy <;> simp [htr, pyOr, Json.truthy]
    | obj fs =>
        cases fs with
        | nil =>
            refine ⟨.null, ?_, ?_⟩
            · unfold extractStoreRef
              rw [hlk]
              simp [Json.truthy]
            · unfold newBlobUrl
              rw [hlk]
              simp [pyOr, Json.truthy]
        | cons k0 v0 rest =>
            have h' : goodBlobField r key = true := h
            simp only [goodBlobField, hlk] at h'
            rcases href : (JFields.cons k0 v0 rest).lookup "ref" with _ | rv
            · simp only [href] at h'
              have h2 : (JFields.cons k0 v0 rest).lookup "$link" = none ∨
                  (JFields.cons k0 v0 rest).lookup "$link" = some (.str "") := by
                simpa using h'
              refine ⟨.str "", ?_, ?_⟩
              · unfold extractStoreRef
                rw [hlk]
                simp only [getD, href]
                simp [Json.truthy, JFields.lookup]
              · unfold newBlobUrl
                rw [hlk]
                rcases h2 with h2 | h2 <;> simp [Json.truthy, href, h2, pyOr]
            · cases rv with
              | obj rfs =>
                  simp only [href] at h'
                  have h2 : (getD rfs "$link" (.str "")).truthy = true ∨
                      getD rfs "$link" (.str "") = .str "" := by
                    simpa using h'
                  have htr : (Json.obj (JFields.cons k0 v0 rest)).truthy = true := rfl
                  have htr2 : (Json.str "").truthy = false := rfl
                  refine ⟨getD rfs "$link" (.str ""), ?_, ?_⟩
                  · unfold extractStoreRef
                    rw [hlk]
                    simp [Json.truthy, getD, href]
                  · unfold newBlobUrl
                    rw [hlk]
                    rcases h2 with h2 | h2 <;> simp [href, h2, pyOr, htr, htr2]
              | null => simp [href] at h'
              | str s0 => simp [href] at h'

theorem text_store_detect (r : ProfileRecord) (key : String)
    (h : goodTextField r key = true) :
    pyOr (getD r key (.str "")) (.str "") = getD r key (.str "") := by
  rcases hlk : r.lookup key with _ | v
  · simp [getD, hlk, pyOr, Json.truthy]
  · have h' : v.truthy = true ∨ v = .str "" := by
      simpa [goodTextField, hlk] using h
    rcases h' with h' | h'
    · simp [getD, hlk, pyOr, h']
    · subst h'
      simp [getD, hlk, pyOr, Json.truthy]

theorem store_roundtrip (db : Db) (t : Nat) (did : String) (r : ProfileRecord)
    (c : Option Client)
    (hA : goodBlobField r "avatar" = true) (hB : goodBlobField r "banner" = true) :
    ∃ rowNew : ProfileRow,
      get_profile (store_profile_from_record db t did r c) did = some rowNew ∧
      pyOr rowNew.avatar_ref (.str "") = newBlobUrl r "avatar" ∧
      pyOr rowNew.banner_ref (.str "") = newBlobUrl r "banner" ∧
      rowNew.display_name = getD r "displayName" (.str "") ∧
      rowNew.description = getD r "description" (.str "") := by
  obtain ⟨ja, hja, hja2⟩ := blob_store_detect r "avatar" hA
  obtain ⟨jb, hjb, hjb2⟩ := blob_store_detect r "banner" hB
  unfold store_profile_from_record
  rw [hja, hjb]
  unfold get_profile store_profile
  rw [alistFind_upsert_self]
  rcases hold : alistFind db.profiles did with _ | oldRow
  · refine ⟨_, rfl, ?_, ?_, rfl, rfl⟩
    · rw [pyOr_idem]; exact hja2
    · rw [pyOr_idem]; exact hjb2
  · refine ⟨_, rfl, ?_, ?_, rfl, rfl⟩
    · rw [pyOr_idem]; exact hja2
    · rw [pyOr_idem]; exact hjb2

theorem compute_changed_self (r : ProfileRecord) (rowNew : ProfileRow)
    (h1 : pyOr rowNew.avatar_ref (.str "") = newBlobUrl r "avatar")
    (h2 : pyOr rowNew.banner_ref (.str "") = newBlobUrl r "banner")
    (h3 : rowNew.display_name = getD r "displayName" (.str ""))
    (h4 : rowNew.description = getD r "description" (.str ""))
    (hD : goodTextField r "displayName" = true)
    (hE : goodTextField r "description" = true) :
    compute_changed (prevRecordOfRow rowNew) r = ∅ := by
  simp only [compute_changed]
  rw [prevRecord_avatar, prevRecord_banner, prevRecord_displayName, prevRecord_description,
      h1, h2, h3, h4, text_store_detect r "displayName" hD,
      text_store_detect r "description" hE]
  simp

/-- C1 amended: for records whose avatar and banner fields resolve the
same way at store time and at detect time (in particular any record using
the nested link form or omitting the field) and whose text fields are
absent, truthy or empty strings, a second detection call with the same
record right after the first returns the empty change set. -/
theorem idempotent_snapshot_overwrite (db : Db) (t1 t2 : Nat) (did : String)
    (r : ProfileRecord) (c1 c2 : Option Client)
    (h : WellFormedRecord r = true) :
    (detect_profile_changes (detect_profile_changes db t1 did r c1).2 t2 did r c2).1 = ∅ := by
  have h' := h
  unfold WellFormedRecord at h'
  simp only [Bool.and_eq_true] at h'
  obtain ⟨⟨⟨hA, hB⟩, hD⟩, hE⟩ := h'
  rw [detect_snd]
  obtain ⟨rowNew, hfind, h1, h2, h3, h4⟩ := store_roundtrip db t1 did r c1 hA hB
  rw [detect_fst_of_row _ t2 did r c2 rowNew hfind]
  exact compute_changed_self r rowNew h1 h2 h3 h4 hD hE

def recW1 : ProfileRecord :=
  .cons "displayName" (.str "Alice")
    (.cons "avatar" (.obj (.cons "ref" (.obj (.cons "$link" (.str "cidZ") .nil)) .nil)) .nil)

theorem idempotent_snapshot_overwrite_witness :
    WellFormedRecord recW1 = true ∧
    (detect_profile_changes
        (detect_profile_changes Db.empty 0 "did:plc:w1" recW1 none).2
        1 "did:plc:w1" recW1 none).1 = ∅ :=
  ⟨by decide,
   idempotent_snapshot_overwrite Db.empty 0 1 "did:plc:w1" recW1 none none (by decide)⟩

def flatAvatarRecord : ProfileRecord :=
  .cons "avatar" (.obj (.cons "$link" (.str "cid123") .nil)) .nil

/-- C1 counterexample: a record whose avatar uses the flat link form.
Storage extracts only the nested form, so the snapshot keeps an empty
avatar reference while detection resolves the flat link, and the second
identical call reports an avatar change instead of the empty set. -/
theorem idempotent_snapshot_overwrite_refuted :
    (detect_profile_changes
        (detect_profile_changes Db.empty 0 "did:plc:alice" flatAvatarRecord none).2
        1 "did:plc:alice" flatAvatarRecord none).1 = {"avatar"} ∧
    (detect_profile_changes
        (detect_profile_changes Db.empty 0 "did:plc:alice" flatAvatarRecord none).2
        1 "did:plc:alice" flatAvatarRecord none).1 ≠ ∅ := by
  exact ⟨by decide, by decide⟩

/-- C5 amended: for identity (handle-change) events and profile-update
commit events, an empty mutual-follower set means no message send is
invoked by either listener; follow events are not covered, since the
welcome message is sent without consulting mutual followers. -/
theorem relevance_gate (db : Db) (t : Nat) (c : Client) (did handle op : String)
    (rec : ProfileRecord) (hm : mutual_followers c did = some []) :
    (identity_listener_event db t c (.identity did handle)).1 = []
    ∧ (identity_listener_event db t c (.commit did "app.bsky.actor.profile" op rec)).1 = []
    ∧ (profile_listener_event db t c (.commit did "app.bsky.actor.profile" op rec)).1 = [] := by
  refine ⟨?_, ?_, ?_⟩
  · simp only [identity_listener_event]
    split
    · rfl
    · simp [hm]
  · simp only [identity_listener_event]
    by_cases hop : op = "update"
    · subst hop; simp [hm]
    · simp [hm, hop]
  · simp only [profile_listener_event]
    by_cases hop : op = "update"
    · subst hop; simp [hm]
    · simp [hm, hop]

def clientC5 : Client :=
  { me := "did:plc:bot",
    profile := fun _ => none,
    followers := fun _ => some [] }

def evC5 : Event :=
  .commit "did:plc:newf" "app.bsky.graph.follow" "create"
    (.cons "subject" (.str "did:plc:bot") .nil)

/-- C5 counterexample: a follow event from a subject with no mutual
followers still triggers a welcome message send to that subject. -/
theorem relevance_gate_refuted :
    mutual_followers clientC5 "did:plc:newf" = some [] ∧
    (profile_listener_event Db.empty 0 clientC5 evC5).1 = ["did:plc:newf"] := by
  exact ⟨by decide, by decide⟩

theorem relevance_gate_witness :
    (identity_listener_event Db.empty 0 clientC5 (.identity "did:plc:x" "x.bsky.social")).1 = []
    ∧ (identity_listener_event Db.empty 0 clientC5
        (.commit "did:plc:x" "app.bsky.actor.profile" "update" .nil)).1 = []
    ∧ (profile_listener_event Db.empty 0 clientC5
        (.commit "did:plc:x" "app.bsky.actor.profile" "update" .nil)).1 = [] :=
  relevance_gate Db.empty 0 clientC5 "did:plc:x" "x.bsky.social" "update" .nil (by decide)

/-- C4 amended: a mutual follower whose preference filter leaves an empty
remainder is never messaged by the profile listener; the identity
listener guarantees this only when the detected change set is non-empty,
since an empty change set makes it message every mutual follower. -/
theorem empty_remainder_no_send (db : Db) (t : Nat) (c : Client) (did r : String)
    (rec : ProfileRecord)
    (hpf : filter_enabled (detect_profile_changes db t did rec (some c)).2 r
        (detect_profile_changes db t did rec (some c)).1 = ∅) :
    r ∉ (profile_listener_event db t c
        (.commit did "app.bsky.actor.profile" "update" rec)).1
    ∧ ((detect_profile_changes db t did rec (some c)).1 ≠ ∅ →
       r ∉ (identity_listener_event db t c
        (.commit did "app.bsky.actor.profile" "update" rec)).1) := by
  have hpf' : (detect_profile_changes db t did rec (some c)).1 \
      get_user_preferences (detect_profile_changes db t did rec (some c)).2 r = ∅ := hpf
  have hsub := Finset.sdiff_eq_empty_iff_subset.mp hpf'
  constructor
  · simp only [profile_listener_event]
    rw [if_neg (by decide : ¬("app.bsky.actor.profile" = "app.bsky.graph.follow"))]
    rw [if_pos trivial]
    rw [if_neg (not_not_intro (rfl : "update" = "update"))]
    rcases hmf : mutual_followers c did with _ | mutuals
    · simp
    · simp only []
      cases hemp : mutuals.isEmpty
      · rcases hcp : c.profile did with _ | p
        · simp [hemp, hcp]
        · simp only [hemp, hcp, Bool.false_eq_true, if_false]
          by_cases hch : (detect_profile_changes db t did rec (some c)).1 = ∅
          · simp [hch]
          · rw [if_neg hch]
            intro hmem
            rw [List.mem_filter] at hmem
            have hcond := hmem.2
            simp [hpf'] at hcond
      · simp [hemp]
  · intro hne
    simp only [identity_listener_event]
    rw [if_neg (by decide : ¬("app.bsky.actor.profile" = "app.bsky.graph.follow"))]
    rw [if_pos trivial]
    rw [if_neg (not_not_intro (rfl : "update" = "update"))]
    rcases hmf : mutual_followers c did with _ | mutuals
    · simp
    · simp only []
      cases hemp : mutuals.isEmpty
      · rcases hcp : c.profile did with _ | p
        · simp [hemp, hcp]
        · simp only [hemp, hcp, Bool.false_eq_true, if_false]
          rw [if_neg hne]
          intro hmem
          rw [List.mem_filter] at hmem
          have hcond := hmem.2
          simp [hsub] at hcond
      · simp [hemp]

def rowC4 : ProfileRow :=
  { handle := "subj.test", display_name := .str "Alice", description := .str "",
    avatar_ref := .str "", banner_ref := .str "", created_at := 0, updated_at := 0 }

def dbC4 : Db := { profiles := [("did:plc:subj", rowC4)], prefs := [] }

def clientC4 : Client :=
  { me := "did:plc:bot",
    profile := fun d =>
      if d = "did:plc:subj" then
        some { handle := "subj.test", display_name := .str "Alice",
               description := .str "", avatar := none, banner := none }
      else none,
    followers := fun d =>
      if d = "did:plc:subj" then some ["did:plc:rita"]
      else if d = "did:plc:bot" then some ["did:plc:rita"] else none }

def recC4 : ProfileRecord := .cons "displayName" (.str "Alice") .nil

/-- C4 counterexample: a profile-update event whose detected change set
is empty (so every per-recipient remainder is empty) still makes the
identity listener message every mutual follower. -/
theorem empty_remainder_no_send_refuted :
    (detect_profile_changes dbC4 0 "did:plc:subj" recC4 (some clientC4)).1 = ∅ ∧
    filter_enabled (detect_profile_changes dbC4 0 "did:plc:subj" recC4 (some clientC4)).2
      "did:plc:rita" (detect_profile_changes dbC4 0 "did:plc:subj" recC4 (some clientC4)).1 = ∅ ∧
    (identity_listener_event dbC4 0 clientC4
        (.commit "did:plc:subj" "app.bsky.actor.profile" "update" recC4)).1 =
      ["did:plc:rita"] := by
  exact ⟨by decide, by decide, by decide⟩

def rowW4 : ProfileRow :=
  { handle := "s.test", display_name := .str "", description := .str "",
    avatar_ref := .str "cidA", banner_ref := .str "", created_at := 0, updated_at := 0 }

def prefW4 : PrefRow :=
  { disabled_avatar := true, disabled_banner := false, disabled_displayname := false,
    disabled_bio := false, disabled_handle := false, created_at := 0, updated_at := 0 }

def dbW4 : Db :=
  { profiles := [("did:plc:s", rowW4)], prefs := [("did:plc:r", prefW4)] }

def clientW4 : Client :=
  { me := "did:plc:bot",
    profile := fun _ =>
      some { handle := "s.test", display_name := .str "", description := .str "",
             avatar := none, banner := none },
    followers := fun d =>
      if d = "did:plc:s" then some ["did:plc:r"]
      else if d = "did:plc:bot" then some ["did:plc:r"] else none }

def recW4 : ProfileRecord :=
  .cons "avatar" (.obj (.cons "ref" (.obj (.cons "$link" (.str "cidB") .nil)) .nil)) .nil

theorem empty_remainder_no_send_witness :
    "did:plc:r" ∉ (profile_listener_event dbW4 0 clientW4
        (.commit "did:plc:s" "app.bsky.actor.profile" "update" recW4)).1
    ∧ "did:plc:r" ∉ (identity_listener_event dbW4 0 clientW4
        (.commit "did:plc:s" "app.bsky.actor.profile" "update" recW4)).1 :=
  ⟨(empty_remainder_no_send dbW4 0 clientW4 "did:plc:s" "did:plc:r" recW4 (by decide)).1,
   (empty_remainder_no_send dbW4 0 clientW4 "did:plc:s" "did:plc:r" recW4 (by decide)).2
     (by decide)⟩
